import Mathlib

/-!
Verification of the ENOQ-CORE decision/caching/verification layer.

Shallow embedding of:
- the content compliance engine (gate/verification/content_compliance.ts),
- the webhook connector and its idempotency cache
  (src/external/connectors/webhook.ts),
- the orchestrator entry point (src/core/pipeline/orchestrator.ts),
- the admission gate (modelled from the specification, see below).

Regular expressions are abstracted as opaque matchers: a matcher takes the
candidate text and returns the matched fragment (the TypeScript match[0])
or none.  External collaborators (the runtime generation stage, the
boundary classifier, the verification module, the SDK runtimes) are
parameters of the embedded functions, as the specification treats them as
opaque contracts.
-/

namespace ENOQ

-- ============================================
-- COMPLIANCE ENGINE (content_compliance.ts)
-- ============================================

/-- Severity levels of a compliance pattern definition
(PatternDef.severity in content_compliance.ts). -/
inductive Severity where
  | warning
  | block
  | stop
deriving DecidableEq

/-- Verdict actions (ComplianceResult.action). -/
inductive Action where
  | DELIVER
  | FALLBACK
  | STOP
deriving DecidableEq

/-- The four violation categories (ComplianceCategory). -/
inductive ComplianceCategory where
  | NORMATIVE
  | RANKING
  | ENGAGEMENT
  | PERSUASION
deriving DecidableEq

/-- String rendering of a category, used by the template literal that
builds fallback_reason in checkCompliance. -/
def categoryName : ComplianceCategory → String
  | .NORMATIVE => "NORMATIVE"
  | .RANKING => "RANKING"
  | .ENGAGEMENT => "ENGAGEMENT"
  | .PERSUASION => "PERSUASION"

/-- A regular expression is abstracted as a matcher: on a match it returns
the matched text (match[0]), otherwise none. -/
abbrev Matcher := String → Option String

/-- Per-locale pattern lists of one PatternDef (PatternDef.patterns). -/
structure PatternSet where
  en : List Matcher
  it : List Matcher
  es : List Matcher
  fr : List Matcher
  de : List Matcher
  universal : List Matcher

/-- One compliance rule (PatternDef in content_compliance.ts). -/
structure PatternDef where
  id : String
  category : ComplianceCategory
  severity : Severity
  invariant : String
  patterns : PatternSet

/-- A recorded violation (ComplianceViolation). -/
structure ComplianceViolation where
  category : ComplianceCategory
  pattern_id : String
  matched_text : String
  severity : Severity
  invariant : String
deriving DecidableEq

/-- Result of checkCompliance (ComplianceResult). -/
structure ComplianceResult where
  passed : Bool
  violations : List ComplianceViolation
  action : Action
  fallback_reason : Option String
deriving DecidableEq

/-- Supported languages: the five locales with explicit pattern tables,
plus one constructor standing for every other supported language (the
default branch of mapLanguageToKey sends those to en). -/
inductive SupportedLanguage where
  | en
  | it
  | es
  | fr
  | de
  | other
deriving DecidableEq

/-- Keys of the per-locale pattern table. -/
inductive LangKey where
  | en
  | it
  | es
  | fr
  | de
deriving DecidableEq

/-- mapLanguageToKey (content_compliance.ts): languages without explicit
patterns fall through to en. -/
def mapLanguageToKey : SupportedLanguage → LangKey
  | .en => .en
  | .it => .it
  | .es => .es
  | .fr => .fr
  | .de => .de
  | .other => .en

/-- Locale-specific pattern list selection
(patternDef.patterns[langKey] or the empty list). -/
def langPatterns (p : PatternSet) : LangKey → List Matcher
  | .en => p.en
  | .it => p.it
  | .es => p.es
  | .fr => p.fr
  | .de => p.de

/-- The pattern list scanned for one rule: locale patterns, then universal
patterns, then the English patterns as a fallback when the language key is
not en (patternsToCheck in checkCompliance). -/
def patternsToCheck (p : PatternDef) (k : LangKey) : List Matcher :=
  (langPatterns p.patterns k ++ p.patterns.universal) ++
    (if k ≠ LangKey.en then p.patterns.en else [])

/-- The inner loop of checkCompliance: scan the patterns in order and
record at most one violation for this rule; the loop exits on the first
match, so the first matching pattern wins. -/
def checkViolation (output : String) (k : LangKey) (p : PatternDef) :
    Option ComplianceViolation :=
  (List.findSome? (fun m => m output) (patternsToCheck p k)).map fun t =>
    { category := p.category
      pattern_id := p.id
      matched_text := t
      severity := p.severity
      invariant := p.invariant }

/-- determineAction (content_compliance.ts): DELIVER with no violations,
STOP if any stop severity is present, else FALLBACK if any block severity
is present, else FALLBACK (warning only is still unsafe by default). -/
def determineAction (violations : List ComplianceViolation) : Action :=
  if violations.length = 0 then Action.DELIVER
  else if violations.any (fun v => v.severity == Severity.stop) then Action.STOP
  else if violations.any (fun v => v.severity == Severity.block) then Action.FALLBACK
  else Action.FALLBACK

/-- fallback_reason construction in checkCompliance: present exactly when
at least one violation was recorded, built from the first violation. -/
def fallbackReason (violations : List ComplianceViolation) : Option String :=
  match violations with
  | [] => none
  | v :: _ =>
    some (categoryName v.category ++ ": " ++ v.matched_text ++ " (" ++ v.invariant ++ ")")

/-- checkCompliance (content_compliance.ts): the outer loop over all
configured rules collects at most one violation per rule, which is a
filterMap of the per-rule scan.  The concrete regex table
COMPLIANCE_PATTERNS is abstracted as the parameter rules. -/
def checkCompliance (rules : List PatternDef) (output : String)
    (language : SupportedLanguage) : ComplianceResult :=
  let k := mapLanguageToKey language
  let violations := rules.filterMap (checkViolation output k)
  { passed := violations.length == 0
    violations := violations
    action := determineAction violations
    fallback_reason := fallbackReason violations }

-- ============================================
-- WEBHOOK CONNECTOR + IDEMPOTENCY CACHE
-- (src/external/connectors/webhook.ts)
-- ============================================

/-- A connector-level response (ConnectorResponse in connectors/types).
Timestamps are modelled as natural-number milliseconds; the opaque
runtime result is modelled as a String. -/
structure ConnectorResponse where
  request_id : String
  success : Bool
  runtime : String
  result : Option String
  error : Option String
  timestamp : Nat
  duration_ms : Nat
deriving DecidableEq

/-- One idempotency-cache entry (CachedResponse in webhook.ts). -/
structure CachedResponse where
  response : ConnectorResponse
  timestamp : Nat
deriving DecidableEq

/-- The in-memory idempotency cache, a JavaScript Map modelled as an
association list in insertion order. -/
abbrev Cache := List (String × CachedResponse)

/-- CACHE_TTL_MS = 5 minutes. -/
def CACHE_TTL_MS : Nat := 5 * 60 * 1000

/-- Map.get: the value stored at a key. -/
def mapGet (m : Cache) (k : String) : Option CachedResponse :=
  (m.find? (fun e => e.1 == k)).map (fun e => e.2)

/-- Map.set: replace in place when the key is present (JavaScript Map
keeps the original insertion position), append otherwise. -/
def mapSet (m : Cache) (k : String) (v : CachedResponse) : Cache :=
  if m.any (fun e => e.1 == k) then
    m.map (fun e => if e.1 == k then (k, v) else e)
  else m ++ [(k, v)]

/-- Map.delete. -/
def mapDelete (m : Cache) (k : String) : Cache :=
  m.filter (fun e => !(e.1 == k))

/-- getCachedResponse (webhook.ts lines 44-55): an entry older than the
TTL is treated as absent and deleted on read (lazy expiry). -/
def getCachedResponse (now : Nat) (cache : Cache) (key : String) :
    Option ConnectorResponse × Cache :=
  match mapGet cache key with
  | none => (none, cache)
  | some cached =>
    if now - cached.timestamp > CACHE_TTL_MS then (none, mapDelete cache key)
    else (some cached.response, cache)

/-- setCachedResponse (webhook.ts lines 57-69): when the cache holds more
than 1000 entries all expired entries are swept, then the key is set
unconditionally. -/
def setCachedResponse (now : Nat) (cache : Cache) (key : String)
    (response : ConnectorResponse) : Cache :=
  let cache1 :=
    if cache.length > 1000 then
      cache.filter (fun e => !(decide (now - e.2.timestamp > CACHE_TTL_MS)))
    else cache
  mapSet cache1 key { response := response, timestamp := now }

/-- A connector request (ConnectorRequest), built by processWebhook after
validation; payload is the opaque runtime input. -/
structure ConnectorRequest where
  request_id : String
  runtime : String
  payload : String
  timestamp : Nat

/-- The behavior of the three SDK runtimes (mail, relation, decision).
They are external collaborators (surfaces/sdk is outside the core), so
they are a parameter: given the runtime name and the input they either
return a result or throw an error message. -/
abbrev Behavior := String → String → Except String String

/-- WebhookConnector.errorResponse. -/
def errorResponse (request : ConnectorRequest) (code message : String)
    (startMs now : Nat) : ConnectorResponse :=
  { request_id := request.request_id
    success := false
    runtime := request.runtime
    result := none
    error := some (code ++ ": " ++ message)
    timestamp := now
    duration_ms := now - startMs }

/-- WebhookConnector.process (webhook.ts lines 81-119): route to the
runtime named by the request; the default switch branch yields an
INVALID_RUNTIME error response, and every exception thrown by a runtime
is caught and turned into a PROCESSING_ERROR error response. -/
def connectorProcess (b : Behavior) (now : Nat) (request : ConnectorRequest) :
    ConnectorResponse :=
  if request.runtime = "mail" ∨ request.runtime = "relation" ∨
      request.runtime = "decision" then
    match b request.runtime request.payload with
    | Except.ok result =>
      { request_id := request.request_id
        success := true
        runtime := request.runtime
        result := some result
        error := none
        timestamp := now
        duration_ms := now - now }
    | Except.error msg => errorResponse request "PROCESSING_ERROR" msg now now
  else
    errorResponse request "INVALID_RUNTIME"
      ("Unknown runtime: " ++ request.runtime) now now

/-- A webhook payload (WebhookPayload): input is none when missing or not
an object. -/
structure WebhookPayload where
  runtime : String
  input : Option String
  idempotency_key : Option String
deriving DecidableEq

/-- Error part of a webhook response. -/
structure WebhookError where
  code : String
  message : String
deriving DecidableEq

/-- Meta part of a webhook response. -/
structure WebhookMeta where
  request_id : String
  runtime : String
  timestamp : Nat
  duration_ms : Nat
deriving DecidableEq

/-- A webhook response (WebhookResponse). -/
structure WebhookResponse where
  idempotency_key : Option String
  success : Bool
  data : Option String
  error : Option WebhookError
  meta : WebhookMeta
deriving DecidableEq

/-- The valid runtime names checked by processWebhook. -/
def validRuntimes : List String := ["mail", "relation", "decision"]

/-- toWebhookResponse (webhook.ts lines 221-250). -/
def toWebhookResponse (response : ConnectorResponse)
    (idempotencyKey : Option String) : WebhookResponse :=
  if response.success then
    { idempotency_key := idempotencyKey
      success := true
      data := response.result
      error := none
      meta :=
        { request_id := response.request_id
          runtime := response.runtime
          timestamp := response.timestamp
          duration_ms := response.duration_ms } }
  else
    { idempotency_key := idempotencyKey
      success := false
      data := none
      error := some
        { code := "PROCESSING_ERROR"
          message := response.error.getD "Unknown error" }
      meta :=
        { request_id := response.request_id
          runtime := response.runtime
          timestamp := response.timestamp
          duration_ms := response.duration_ms } }

/-- Everything processWebhook does after the idempotency-cache check:
validate the runtime name, validate the input, process through the
connector, and cache the response when an idempotency key is present
(webhook.ts lines 161-215).  reqId models the randomUUID request id and
now models Date.now for this call. -/
def processWebhookBody (reqId : String) (now : Nat) (b : Behavior)
    (payload : WebhookPayload) (cache : Cache) : WebhookResponse × Cache :=
  if validRuntimes.contains payload.runtime then
    match payload.input with
    | none =>
      ({ idempotency_key := payload.idempotency_key
         success := false
         data := none
         error := some
           { code := "INVALID_INPUT"
             message := "Input must be a non-null object" }
         meta :=
           { request_id := reqId
             runtime := payload.runtime
             timestamp := now
             duration_ms := now - now } }, cache)
    | some inp =>
      let request : ConnectorRequest :=
        { request_id := reqId
          runtime := payload.runtime
          payload := inp
          timestamp := now }
      let response := connectorProcess b now request
      let cache2 :=
        match payload.idempotency_key with
        | some k => setCachedResponse now cache k response
        | none => cache
      (toWebhookResponse response payload.idempotency_key, cache2)
  else
    ({ idempotency_key := payload.idempotency_key
       success := false
       data := none
       error := some
         { code := "INVALID_RUNTIME"
           message := "Runtime must be one of: mail, relation, decision" }
       meta :=
         { request_id := reqId
           runtime := payload.runtime
           timestamp := now
           duration_ms := now - now } }, cache)

/-- processWebhook (webhook.ts lines 149-216): serve from the idempotency
cache when a key is supplied and a live entry exists, otherwise run the
validation and processing body. -/
def processWebhook (reqId : String) (now : Nat) (b : Behavior)
    (payload : WebhookPayload) (cache : Cache) : WebhookResponse × Cache :=
  match payload.idempotency_key with
  | some k =>
    let gr := getCachedResponse now cache k
    match gr.1 with
    | some resp => (toWebhookResponse resp (some k), gr.2)
    | none => processWebhookBody reqId now b payload gr.2
  | none => processWebhookBody reqId now b payload cache

-- ============================================
-- ADMISSION GATE (modelled from the spec)
-- ============================================

/-- Fast heuristic signals fed to the Admission Gate (spec section 4.1). -/
structure FastSignals where
  critical : Bool
  confident_classification : Bool

/-- The four gate stages (GatingDecision.stage). -/
inductive GateStage where
  | safety
  | cache
  | heuristic_skip
  | score_gate
deriving DecidableEq

/-- Skip reasons of a gating decision.  HARD_SKIP carries the matched
heuristic category name. -/
inductive SkipReason where
  | SAFETY_BYPASS
  | CACHE_HIT
  | HARD_SKIP (category : String)
  | SCORE_CALL
  | SCORE_SKIP
deriving DecidableEq

/-- A gating decision (GatingDecision, spec section 3). -/
structure GatingDecision where
  invoke : Bool
  stage : GateStage
  reason : SkipReason
  score : Option Int
  cached_result : Option String
deriving DecidableEq

/-- Modelled from the spec: the Admission Gate decide function
(unified_gating.ts) is not among the provided sources; only its
documentation (docs/V5_1_ROUTING.md) and the specification (section 4.1)
describe it.  Stages evaluate in strict order and the first matching
stage wins: Stage 0 returns SAFETY_BYPASS when critical or
confident_classification is set; Stage 1 consults the result cache;
Stage 2 applies the hard-skip heuristics unless an anti-skip pattern
matches; Stage 3 compares the score against the threshold tau.  The
cache, the heuristic rule set, the anti-skip rule set and the scoring
function are configuration, hence parameters. -/
def decide (fast_signals : FastSignals) (cacheLookup : String → Option String)
    (hardSkipRule : String → Option String) (antiSkip : String → Bool)
    (score : String → Int) (tau : Int) (input : String) : GatingDecision :=
  if fast_signals.critical || fast_signals.confident_classification then
    { invoke := false
      stage := GateStage.safety
      reason := SkipReason.SAFETY_BYPASS
      score := none
      cached_result := none }
  else
    match cacheLookup input with
    | some hit =>
      { invoke := false
        stage := GateStage.cache
        reason := SkipReason.CACHE_HIT
        score := none
        cached_result := some hit }
    | none =>
      match (if antiSkip input then none else hardSkipRule input) with
      | some cat =>
        { invoke := false
          stage := GateStage.heuristic_skip
          reason := SkipReason.HARD_SKIP cat
          score := none
          cached_result := none }
      | none =>
        if score input > tau then
          { invoke := true
            stage := GateStage.score_gate
            reason := SkipReason.SCORE_CALL
            score := some (score input)
            cached_result := none }
        else
          { invoke := false
            stage := GateStage.score_gate
            reason := SkipReason.SCORE_SKIP
            score := some (score input)
            cached_result := none }

-- ============================================
-- ORCHESTRATOR (src/core/pipeline/orchestrator.ts)
-- ============================================

/-- The pipeline states (PipelineState in orchestrator.ts). -/
inductive PipelineState where
  | PERMIT
  | SENSE
  | CLARIFY
  | PLAN
  | ACT
  | VERIFY
  | STOP
deriving DecidableEq

/-- Session context: the orchestrator reads session_id and the number of
recorded turns. -/
structure Session where
  session_id : String
  turns : Nat
deriving DecidableEq

/-- The classification carried by a boundary decision. -/
structure Classification where
  signal : String
  confidence : Int
deriving DecidableEq

/-- A boundary decision (BoundaryDecision from core/modules/boundary,
an external module at the orchestrator boundary). -/
structure BoundaryDecision where
  permitted : Bool
  classification : Classification
deriving DecidableEq

/-- The field-state slice of the runtime trace that the orchestrator
reads (trace.s1_field, of which only language is consumed). -/
structure FieldState where
  language : String
deriving DecidableEq

/-- The slice of the runtime trace consumed by the orchestrator:
s1_field and s3_selection, each possibly absent. -/
structure Trace where
  s1_field : Option FieldState
  s3_selection : Option String
deriving DecidableEq

/-- The runtime pipeline result (PipelineResult) as consumed by the
orchestrator: the output text and the optional trace. -/
structure PipelineResult where
  output : String
  trace : Option Trace
deriving DecidableEq

/-- The runtime pipeline configuration slice the orchestrator builds
(gate_enabled merged with default true). -/
structure PipelineConfig where
  gate_enabled : Bool
deriving DecidableEq

/-- CoreConfig: each flag is optional and defaults to enabled; the
TypeScript checks are of the form config.flag !== false. -/
structure CoreConfig where
  signals_enabled : Option Bool
  boundary_enabled : Option Bool
  verification_enabled : Option Bool
  gate_enabled : Option Bool
deriving DecidableEq

/-- A verification decision (VerificationDecision from
core/modules/verification, external); the orchestrator only consumes
passed. -/
structure VerificationDecision where
  passed : Bool
deriving DecidableEq

/-- The sealed result of enoqCore: the runtime output and trace, the
emitted signal history, the ordered list of states traversed (handed to
emitPipelineEnd), the boundary decision and the verification decision. -/
structure CoreResult where
  output : String
  trace : Option Trace
  signals : List PipelineState
  statesTraversed : List PipelineState
  boundary : Option BoundaryDecision
  verification : Option VerificationDecision
deriving DecidableEq

/-- The delegated runtime stage (runtime/pipeline/pipeline.ts, outside
the core): per spec section 6 it may raise Unavailable, RateLimited or
Timeout, so it returns in the Except monad. -/
abbrev RuntimeEnoq := String → Session → PipelineConfig → Except String PipelineResult

/-- The boundary classifier permit (core/modules/boundary, external). -/
abbrev PermitFun := String → Session → BoundaryDecision

/-- The verification module (core/modules/verification, external):
arguments are output text, field, selection, detected language. -/
abbrev VerifyFun := String → FieldState → String → String → VerificationDecision

/-- VERIFY precondition (orchestrator.ts line 213): the runtime trace
must carry both s3_selection and s1_field. -/
def traceReady : Option Trace → Bool
  | some t => t.s3_selection.isSome && t.s1_field.isSome
  | none => false

/-- Language extraction before verification (orchestrator.ts line 224):
mixed, unknown or empty field language falls back to en. -/
def detectLang (fieldLang : String) : String :=
  if fieldLang = "mixed" ∨ fieldLang = "unknown" ∨ fieldLang = "" then "en"
  else fieldLang

/-- The verification decision computed by the VERIFY section, when its
precondition holds. -/
def verifySection (verifyOutputF : VerifyFun) (verificationEnabled : Bool)
    (result : PipelineResult) : Option VerificationDecision :=
  match result.trace with
  | some t =>
    match t.s3_selection, t.s1_field with
    | some sel, some field =>
      if verificationEnabled then
        some (verifyOutputF result.output field sel (detectLang field.language))
      else none
    | _, _ => none
  | none => none

/-- enoqCore (orchestrator.ts lines 116-281).  The states and signal
history are accumulated exactly where the TypeScript pushes them: PERMIT
and SENSE before the runtime call, ACT after it, VERIFY when the trace
data is available and verification is enabled, STOP at the end; the
emitter history has no ACT entry (the ACT section pushes only onto
statesTraversed).  The runtime call is not wrapped in any try/catch, so
its failure propagates as the Except error. -/
def enoqCore (permitF : PermitFun) (runtimeEnoqF : RuntimeEnoq)
    (verifyOutputF : VerifyFun) (message : String) (session : Session)
    (config : CoreConfig) : Except String CoreResult :=
  let signalsEnabled := config.signals_enabled.getD true
  let boundaryEnabled := config.boundary_enabled.getD true
  let verificationEnabled := config.verification_enabled.getD true
  let boundaryDecision :=
    if boundaryEnabled then some (permitF message session) else none
  let states2 : List PipelineState :=
    if signalsEnabled then [PipelineState.PERMIT, PipelineState.SENSE] else []
  let runtimeConfig : PipelineConfig := { gate_enabled := config.gate_enabled.getD true }
  match runtimeEnoqF message session runtimeConfig with
  | Except.error e => Except.error e
  | Except.ok result =>
    let states3 := if signalsEnabled then states2 ++ [PipelineState.ACT] else states2
    let ready := traceReady result.trace
    let states4 :=
      if (verificationEnabled && ready) && signalsEnabled then
        states3 ++ [PipelineState.VERIFY]
      else states3
    let verificationDecision := verifySection verifyOutputF verificationEnabled result
    let states5 := if signalsEnabled then states4 ++ [PipelineState.STOP] else states4
    let sigs :=
      (if signalsEnabled then [PipelineState.PERMIT, PipelineState.SENSE] else []) ++
        (if (verificationEnabled && ready) && signalsEnabled then [PipelineState.VERIFY] else []) ++
        (if signalsEnabled then [PipelineState.STOP] else [])
    Except.ok
      { output := result.output
        trace := result.trace
        signals := sigs
        statesTraversed := states5
        boundary := boundaryDecision
        verification := verificationDecision }

/-- The states-traversed projection of an orchestrator outcome; a
propagated exception has no sealed state list. -/
def statesOf : Except String CoreResult → List PipelineState
  | Except.ok r => r.statesTraversed
  | Except.error _ => []

-- ============================================
-- CONCRETE FIXTURES (for closed instances)
-- ============================================

/-- A concrete matcher standing for the regex on the phrase
"you should": matches exactly one sample output. -/
def matchYouShould : Matcher :=
  fun s => if s = "You should quit your job" then some "You should" else none

/-- A concrete matcher standing for the regex on the phrase
"shall we continue". -/
def matchContinue : Matcher :=
  fun s => if s = "shall we continue" then some "shall we continue" else none

/-- A concrete normative stop-severity rule (NORM-001 shape). -/
def ruleNorm : PatternDef :=
  { id := "NORM-001"
    category := ComplianceCategory.NORMATIVE
    severity := Severity.stop
    invariant := "INV-003"
    patterns :=
      { en := [matchYouShould], it := [], es := [], fr := [], de := [], universal := [] } }

/-- A concrete engagement block-severity rule (ENGAGE-001 shape). -/
def ruleEngage : PatternDef :=
  { id := "ENGAGE-001"
    category := ComplianceCategory.ENGAGEMENT
    severity := Severity.block
    invariant := "INV-001"
    patterns :=
      { en := [matchContinue], it := [], es := [], fr := [], de := [], universal := [] } }

/-- A sample stop-severity violation. -/
def violStop : ComplianceViolation :=
  { category := ComplianceCategory.NORMATIVE
    pattern_id := "NORM-001"
    matched_text := "You should"
    severity := Severity.stop
    invariant := "INV-003" }

/-- A sample block-severity violation. -/
def violBlock : ComplianceViolation :=
  { category := ComplianceCategory.ENGAGEMENT
    pattern_id := "ENGAGE-001"
    matched_text := "shall we continue"
    severity := Severity.block
    invariant := "INV-001" }

/-- A runtime behavior that always throws. -/
def behaviorThrow : Behavior := fun _ _ => Except.error "boom"

/-- A runtime behavior that always succeeds. -/
def behaviorOk : Behavior := fun name inp => Except.ok (name ++ ":" ++ inp)

/-- A sample successful connector response. -/
def respA : ConnectorResponse :=
  { request_id := "r1", success := true, runtime := "mail", result := some "a"
    error := none, timestamp := 0, duration_ms := 0 }

/-- A second, different sample connector response. -/
def respB : ConnectorResponse :=
  { request_id := "r2", success := true, runtime := "mail", result := some "b"
    error := none, timestamp := 0, duration_ms := 0 }

/-- A payload with an unknown runtime name and an idempotency key. -/
def badPayload : WebhookPayload :=
  { runtime := "bogus", input := some "i", idempotency_key := some "k" }

/-- A payload with a valid runtime and an idempotency key. -/
def goodPayload : WebhookPayload :=
  { runtime := "mail", input := some "i", idempotency_key := some "k" }

/-- A payload with an unknown runtime name and no idempotency key. -/
def badPayloadNoKey : WebhookPayload :=
  { runtime := "bogus", input := some "i", idempotency_key := none }

/-- An empty result-cache lookup for the gate. -/
def cacheNone : String → Option String := fun _ => none

/-- A heuristic rule set that never skips. -/
def noHardSkip : String → Option String := fun _ => none

/-- An anti-skip rule set that never matches. -/
def noAntiSkip : String → Bool := fun _ => false

/-- A constant scoring function. -/
def scoreZero : String → Int := fun _ => 0

/-- A boundary classifier that permits every input. -/
def permitAll : PermitFun :=
  fun _ _ => { permitted := true, classification := { signal := "NONE", confidence := 0 } }

/-- A runtime whose result carries no trace. -/
def runtimeNoTrace : RuntimeEnoq :=
  fun _ _ _ => Except.ok { output := "out", trace := none }

/-- A runtime whose result carries a complete trace. -/
def runtimeWithTrace : RuntimeEnoq :=
  fun _ _ _ =>
    Except.ok
      { output := "out"
        trace := some { s1_field := some { language := "en" }, s3_selection := some "sel" } }

/-- A runtime that fails, standing for a generation-stage timeout. -/
def runtimeFails : RuntimeEnoq := fun _ _ _ => Except.error "Timeout"

/-- A verification module stub that always passes. -/
def verifyStub : VerifyFun := fun _ _ _ _ => { passed := true }

/-- A sample session. -/
def sampleSession : Session := { session_id := "s", turns := 0 }

/-- The empty core configuration: every flag defaults to enabled. -/
def emptyConfig : CoreConfig :=
  { signals_enabled := none, boundary_enabled := none
    verification_enabled := none, gate_enabled := none }

-- ============================================
-- HELPER LEMMAS
-- ============================================

/-- A successful per-rule scan records the scanned rule id and the first
matching text. -/
theorem checkViolation_eq_some {output : String} {k : LangKey} {d : PatternDef}
    {v : ComplianceViolation} (h : checkViolation output k d = some v) :
    v.pattern_id = d.id ∧
      List.findSome? (fun m => m output) (patternsToCheck d k) = some v.matched_text := by
  unfold checkViolation at h
  rw [Option.map_eq_some'] at h
  obtain ⟨t, ht, hv⟩ := h
  subst hv
  exact ⟨rfl, ht⟩

/-- Mapping over a filterMap is a sublist of mapping over the source,
whenever the projection of each produced element agrees with the
projection of its source element. -/
theorem filterMap_map_sublist {α β γ : Type} (f : α → Option β) (g : β → γ)
    (h : α → γ) (hf : ∀ a b, f a = some b → g b = h a) (l : List α) :
    List.Sublist ((l.filterMap f).map g) (l.map h) := by
  induction l with
  | nil => simp
  | cons a t ih =>
    cases hfa : f a with
    | none =>
      rw [List.filterMap_cons_none hfa, List.map_cons]
      exact ih.cons (h a)
    | some b =>
      rw [List.filterMap_cons_some hfa, List.map_cons, List.map_cons, hf a b hfa]
      exact ih.cons₂ (h a)

/-- find? over an in-place replacement hits the replaced entry when the
key occurs. -/
theorem find?_map_replace (k : String) (v : CachedResponse) (m : Cache)
    (h : m.any (fun e => e.1 == k) = true) :
    (m.map (fun e => if e.1 == k then (k, v) else e)).find? (fun e => e.1 == k) =
      some (k, v) := by
  induction m with
  | nil => simp at h
  | cons e t ih =>
    by_cases he : (e.1 == k) = true
    · simp only [List.map_cons, if_pos he]
      exact List.find?_cons_of_pos _ (by simp)
    · have ht : t.any (fun e => e.1 == k) = true := by
        rw [List.any_cons] at h
        rcases Bool.or_eq_true_iff.mp h with h1 | h1
        · exact absurd h1 he
        · exact h1
      simp only [List.map_cons, if_neg he]
      rw [@List.find?_cons_of_neg _ (fun e => e.1 == k) e _ he]
      exact ih ht

/-- find? over an append hits the appended entry when the key does not
occur in the front list. -/
theorem find?_append_absent (k : String) (v : CachedResponse) (m : Cache)
    (h : m.any (fun e => e.1 == k) = false) :
    (m ++ [(k, v)]).find? (fun e => e.1 == k) = some (k, v) := by
  induction m with
  | nil => simp [List.find?]
  | cons e t ih =>
    rw [List.any_cons, Bool.or_eq_false_iff] at h
    rw [List.cons_append, List.find?_cons_of_neg _ (by simp [h.1])]
    exact ih h.2

/-- Map.set followed by Map.get on the same key returns the stored
value. -/
theorem mapGet_mapSet_self (m : Cache) (k : String) (v : CachedResponse) :
    mapGet (mapSet m k v) k = some v := by
  unfold mapGet mapSet
  by_cases h : m.any (fun e => e.1 == k) = true
  · rw [if_pos h, find?_map_replace k v m h]
    rfl
  · have h' : m.any (fun e => e.1 == k) = false := by
      cases hb : m.any (fun e => e.1 == k) with
      | true => exact absurd hb h
      | false => rfl
    rw [if_neg h, find?_append_absent k v m h']
    rfl

/-- setCachedResponse stores the response under the key with the write
timestamp, whatever sweeping happened before the write. -/
theorem mapGet_setCachedResponse_self (now : Nat) (m : Cache) (k : String)
    (r : ConnectorResponse) :
    mapGet (setCachedResponse now m k r) k = some { response := r, timestamp := now } := by
  unfold setCachedResponse
  exact mapGet_mapSet_self _ k _

/-- Map.delete removes the key. -/
theorem mapGet_mapDelete_self (m : Cache) (k : String) :
    mapGet (mapDelete m k) k = none := by
  unfold mapGet mapDelete
  induction m with
  | nil => rfl
  | cons e t ih =>
    by_cases he : (e.1 == k) = true
    · rw [List.filter_cons, if_neg (by simp [he])]
      exact ih
    · rw [List.filter_cons, if_pos (by simp [he])]
      rw [@List.find?_cons_of_neg _ (fun e => e.1 == k) e _ he]
      exact ih

/-- A live cache hit leaves the cache untouched. -/
theorem getCachedResponse_live_snd (now : Nat) (cache : Cache) (k : String)
    (r : ConnectorResponse) (h : (getCachedResponse now cache k).1 = some r) :
    (getCachedResponse now cache k).2 = cache := by
  unfold getCachedResponse at h ⊢
  cases hm : mapGet cache k with
  | none => rfl
  | some c =>
    rw [hm] at h
    by_cases hexp : now - c.timestamp > CACHE_TTL_MS
    · exfalso
      simp [hexp] at h
    · simp [hexp]

/-- When no live or expired entry exists for the payload key,
processWebhook runs the full validation and processing body. -/
theorem processWebhook_miss (reqId : String) (now : Nat) (b : Behavior)
    (p : WebhookPayload) (cache : Cache)
    (hmiss : ∀ k, p.idempotency_key = some k → mapGet cache k = none) :
    processWebhook reqId now b p cache = processWebhookBody reqId now b p cache := by
  unfold processWebhook
  cases hkey : p.idempotency_key with
  | none => rfl
  | some k =>
    have hg : getCachedResponse now cache k = (none, cache) := by
      unfold getCachedResponse
      rw [hmiss k hkey]
    simp [hg]

/-- A valid runtime name is one of the three supported names. -/
theorem contains_valid_runtime {r : String} (h : validRuntimes.contains r = true) :
    r = "mail" ∨ r = "relation" ∨ r = "decision" := by
  simpa [validRuntimes] using h

/-- A live cache hit short-circuits processWebhook: the cached response
is returned for the payload key and the cache is left unchanged. -/
theorem processWebhook_hit (reqId : String) (now : Nat) (b : Behavior)
    (p : WebhookPayload) (cache : Cache) (k : String) (r : ConnectorResponse)
    (hk : p.idempotency_key = some k)
    (hlive : (getCachedResponse now cache k).1 = some r) :
    processWebhook reqId now b p cache = (toWebhookResponse r (some k), cache) := by
  have hsnd := getCachedResponse_live_snd now cache k r hlive
  unfold processWebhook
  rw [hk]
  simp [hlive, hsnd]

/-- A first call on a missing key that passes validation processes the
request and writes the response into the cache under the key. -/
theorem processWebhook_first_write (reqId : String) (t1 : Nat) (b : Behavior)
    (p : WebhookPayload) (cache : Cache) (k inp : String)
    (hk : p.idempotency_key = some k)
    (hvalid : validRuntimes.contains p.runtime = true)
    (hinput : p.input = some inp) (hmiss : mapGet cache k = none) :
    processWebhook reqId t1 b p cache =
      (toWebhookResponse
        (connectorProcess b t1
          { request_id := reqId, runtime := p.runtime, payload := inp, timestamp := t1 })
        (some k),
      setCachedResponse t1 cache k
        (connectorProcess b t1
          { request_id := reqId, runtime := p.runtime, payload := inp, timestamp := t1 })) := by
  have hmiss' : ∀ k', p.idempotency_key = some k' → mapGet cache k' = none := by
    intro k' hk'
    rw [hk] at hk'
    injection hk' with h
    rw [← h]
    exact hmiss
  have hmem : p.runtime ∈ validRuntimes := by
    rcases contains_valid_runtime hvalid with h | h | h <;> simp [validRuntimes, h]
  rw [processWebhook_miss reqId t1 b p cache hmiss']
  simp [processWebhookBody, hvalid, hmem, hinput, hk]

-- ============================================
-- CLAIM THEOREMS
-- ============================================

/-- C2: the verdict action is the strict severity fold over the recorded
violations: any stop-severity violation gives STOP; otherwise any
block-severity violation gives FALLBACK; otherwise (only warnings
present) the action is still FALLBACK; and an empty violation list gives
DELIVER (determineAction, content_compliance.ts lines 453-470). -/
theorem determineAction_severity_fold (vs : List ComplianceViolation) :
    ((∃ v ∈ vs, v.severity = Severity.stop) → determineAction vs = Action.STOP) ∧
    ((¬ ∃ v ∈ vs, v.severity = Severity.stop) → (∃ v ∈ vs, v.severity = Severity.block) →
      determineAction vs = Action.FALLBACK) ∧
    ((∀ v ∈ vs, v.severity = Severity.warning) → vs ≠ [] →
      determineAction vs = Action.FALLBACK) ∧
    (vs = [] → determineAction vs = Action.DELIVER) := by
  refine ⟨?_, ?_, ?_, ?_⟩
  · rintro ⟨v, hv, hs⟩
    have hne : vs.length ≠ 0 := by
      simp only [ne_eq, List.length_eq_zero]
      rintro rfl
      exact absurd hv (List.not_mem_nil v)
    have hany : vs.any (fun v => v.severity == Severity.stop) = true := by
      rw [List.any_eq_true]
      exact ⟨v, hv, by simp [hs]⟩
    simp [determineAction, hne, hany]
  · intro hno hex
    obtain ⟨v, hv, hb⟩ := hex
    have hne : vs.length ≠ 0 := by
      simp only [ne_eq, List.length_eq_zero]
      rintro rfl
      exact absurd hv (List.not_mem_nil v)
    have h1 : vs.any (fun v => v.severity == Severity.stop) = false := by
      rw [List.any_eq_false]
      intro u hu
      simp only [beq_iff_eq]
      exact fun h => hno ⟨u, hu, h⟩
    have h2 : vs.any (fun v => v.severity == Severity.block) = true := by
      rw [List.any_eq_true]
      exact ⟨v, hv, by simp [hb]⟩
    simp [determineAction, hne, h1, h2]
  · intro hall hne
    have hne' : vs.length ≠ 0 := by
      simp only [ne_eq, List.length_eq_zero]
      exact hne
    have h1 : vs.any (fun v => v.severity == Severity.stop) = false := by
      rw [List.any_eq_false]
      intro u hu
      simp [hall u hu]
    simp [determineAction, hne', h1, ite_self]
  · rintro rfl
    simp [determineAction]

/-- C2 witness: the fold evaluated on the one-element list holding a
stop-severity violation. -/
theorem determineAction_severity_fold_witness :
    ((∃ v ∈ [violStop], v.severity = Severity.stop) →
      determineAction [violStop] = Action.STOP) ∧
    ((¬ ∃ v ∈ [violStop], v.severity = Severity.stop) →
      (∃ v ∈ [violStop], v.severity = Severity.block) →
      determineAction [violStop] = Action.FALLBACK) ∧
    ((∀ v ∈ [violStop], v.severity = Severity.warning) → [violStop] ≠ [] →
      determineAction [violStop] = Action.FALLBACK) ∧
    (([violStop] : List ComplianceViolation) = [] →
      determineAction [violStop] = Action.DELIVER) :=
  determineAction_severity_fold [violStop]

/-- C6: the compliance verifier is deterministic: identical (text,
language) inputs yield identical ComplianceResult values.  In the
embedding checkCompliance is a pure function of the rule table, the text
and the language: the source reads no clock, counter or mutable state,
and the regex literals carry no global flag, so two calls on equal
inputs are equal. -/
theorem checkCompliance_deterministic (rules : List PatternDef)
    (t₁ t₂ : String) (l₁ l₂ : SupportedLanguage) (ht : t₁ = t₂) (hl : l₁ = l₂) :
    checkCompliance rules t₁ l₁ = checkCompliance rules t₂ l₂ := by
  rw [ht, hl]

/-- C6 witness: two calls on the sample text agree. -/
theorem checkCompliance_deterministic_witness :
    checkCompliance [ruleNorm] "I hear you." SupportedLanguage.en =
      checkCompliance [ruleNorm] "I hear you." SupportedLanguage.en :=
  checkCompliance_deterministic [ruleNorm] "I hear you." "I hear you."
    SupportedLanguage.en SupportedLanguage.en rfl rfl

/-- C10: the result of checkCompliance has passed true exactly when the
violation list is empty, and fallback_reason present exactly when at
least one violation was recorded (content_compliance.ts lines 425-432). -/
theorem checkCompliance_passed_iff_violations (rules : List PatternDef)
    (output : String) (lang : SupportedLanguage) :
    ((checkCompliance rules output lang).passed = true ↔
      (checkCompliance rules output lang).violations = []) ∧
    ((checkCompliance rules output lang).fallback_reason.isSome = true ↔
      (checkCompliance rules output lang).violations ≠ []) := by
  have hv : (checkCompliance rules output lang).violations =
      rules.filterMap (checkViolation output (mapLanguageToKey lang)) := rfl
  have hp : (checkCompliance rules output lang).passed =
      ((rules.filterMap (checkViolation output (mapLanguageToKey lang))).length == 0) := rfl
  have hf : (checkCompliance rules output lang).fallback_reason =
      fallbackReason (rules.filterMap (checkViolation output (mapLanguageToKey lang))) := rfl
  cases h : rules.filterMap (checkViolation output (mapLanguageToKey lang)) with
  | nil => simp [hv, hp, hf, h, fallbackReason]
  | cons v t => simp [hv, hp, hf, h, fallbackReason]

/-- C10 witness: the equivalences evaluated on a sample rule table and
text. -/
theorem checkCompliance_passed_iff_violations_witness :
    ((checkCompliance [ruleNorm] "You should quit your job" SupportedLanguage.en).passed = true ↔
      (checkCompliance [ruleNorm] "You should quit your job" SupportedLanguage.en).violations = []) ∧
    ((checkCompliance [ruleNorm] "You should quit your job"
        SupportedLanguage.en).fallback_reason.isSome = true ↔
      (checkCompliance [ruleNorm] "You should quit your job"
        SupportedLanguage.en).violations ≠ []) :=
  checkCompliance_passed_iff_violations [ruleNorm] "You should quit your job"
    SupportedLanguage.en

/-- C8: for every text and language the verifier records at most one
violation per configured rule (the per-rule scan exits on the first
matching pattern), the mapping from rule to recorded violation is
one-to-one when rule ids are distinct, every recorded violation carries
the id of a configured rule together with its first matching text, and
for a non-default language the scanned pattern list is the locale list
followed by the universal list followed by the English fallback
(checkCompliance, content_compliance.ts lines 396-420). -/
theorem checkCompliance_one_violation_per_rule (rules : List PatternDef)
    (output : String) (lang : SupportedLanguage)
    (hnd : (rules.map PatternDef.id).Nodup) :
    (checkCompliance rules output lang).violations.length ≤ rules.length ∧
    ((checkCompliance rules output lang).violations.map
      ComplianceViolation.pattern_id).Nodup ∧
    (∀ v ∈ (checkCompliance rules output lang).violations,
      ∃ d ∈ rules, v.pattern_id = d.id ∧
        List.findSome? (fun m => m output) (patternsToCheck d (mapLanguageToKey lang)) =
          some v.matched_text) ∧
    (∀ d : PatternDef, mapLanguageToKey lang ≠ LangKey.en →
      patternsToCheck d (mapLanguageToKey lang) =
        (langPatterns d.patterns (mapLanguageToKey lang) ++ d.patterns.universal) ++
          d.patterns.en) := by
  have hviol : (checkCompliance rules output lang).violations =
      rules.filterMap (checkViolation output (mapLanguageToKey lang)) := rfl
  refine ⟨?_, ?_, ?_, ?_⟩
  · rw [hviol]
    exact List.length_filterMap_le _ _
  · rw [hviol]
    exact hnd.sublist
      (filterMap_map_sublist (checkViolation output (mapLanguageToKey lang))
        ComplianceViolation.pattern_id PatternDef.id
        (fun d v hv => (checkViolation_eq_some hv).1) rules)
  · rw [hviol]
    intro v hv
    rw [List.mem_filterMap] at hv
    obtain ⟨d, hd, hcv⟩ := hv
    obtain ⟨h1, h2⟩ := checkViolation_eq_some hcv
    exact ⟨d, hd, h1, h2⟩
  · intro d hk
    simp [patternsToCheck, hk]

/-- C8 witness: the conjunction evaluated on a two-rule table with
distinct ids. -/
theorem checkCompliance_one_violation_per_rule_witness :
    (checkCompliance [ruleNorm, ruleEngage] "You should quit your job"
      SupportedLanguage.en).violations.length ≤ [ruleNorm, ruleEngage].length ∧
    ((checkCompliance [ruleNorm, ruleEngage] "You should quit your job"
      SupportedLanguage.en).violations.map ComplianceViolation.pattern_id).Nodup ∧
    (∀ v ∈ (checkCompliance [ruleNorm, ruleEngage] "You should quit your job"
        SupportedLanguage.en).violations,
      ∃ d ∈ [ruleNorm, ruleEngage], v.pattern_id = d.id ∧
        List.findSome? (fun m => m "You should quit your job")
          (patternsToCheck d (mapLanguageToKey SupportedLanguage.en)) =
          some v.matched_text) ∧
    (∀ d : PatternDef, mapLanguageToKey SupportedLanguage.en ≠ LangKey.en →
      patternsToCheck d (mapLanguageToKey SupportedLanguage.en) =
        (langPatterns d.patterns (mapLanguageToKey SupportedLanguage.en) ++
          d.patterns.universal) ++ d.patterns.en) :=
  checkCompliance_one_violation_per_rule [ruleNorm, ruleEngage]
    "You should quit your job" SupportedLanguage.en (by decide)

/-- C3: safety dominance of Stage 0 of the Admission Gate (modelled from
the spec): when fast_signals.critical is set, decide returns invoke false
with reason SAFETY_BYPASS for every input, cache content, heuristic rule
set, anti-skip rule set, scoring function and threshold, so no later
stage can override the outcome. -/
theorem decide_safety_dominance (fs : FastSignals)
    (cacheLookup : String → Option String) (hardSkipRule : String → Option String)
    (antiSkip : String → Bool) (score : String → Int) (tau : Int) (input : String)
    (h : fs.critical = true) :
    (ENOQ.decide fs cacheLookup hardSkipRule antiSkip score tau input).invoke = false ∧
    (ENOQ.decide fs cacheLookup hardSkipRule antiSkip score tau input).reason =
      SkipReason.SAFETY_BYPASS := by
  unfold ENOQ.decide
  rw [h]
  exact ⟨rfl, rfl⟩

/-- C3 witness: the safety bypass evaluated with the critical signal set
and all other stages armed to return different outcomes. -/
theorem decide_safety_dominance_witness :
    (ENOQ.decide { critical := true, confident_classification := false }
      cacheNone noHardSkip noAntiSkip scoreZero 0 "hello").invoke = false ∧
    (ENOQ.decide { critical := true, confident_classification := false }
      cacheNone noHardSkip noAntiSkip scoreZero 0 "hello").reason =
      SkipReason.SAFETY_BYPASS :=
  decide_safety_dominance { critical := true, confident_classification := false }
    cacheNone noHardSkip noAntiSkip scoreZero 0 "hello" rfl

/-- C1: evaluation of the orchestrator at a failing generation stage.
enoqCore awaits runtimeEnoq with no try/catch (orchestrator.ts line 198),
so a rejection of the delegated runtime propagates past the orchestrator
boundary as-is: the run returns the raw error instead of a STOP-sealed
result, contradicting the claim and the comment STOP - Always reached. -/
theorem enoqCore_runtime_failure_propagates :
    enoqCore permitAll runtimeFails verifyStub "hello" sampleSession emptyConfig =
      Except.error "Timeout" := rfl

/-- C7 counterexample: a successful, signals-enabled run whose runtime
result carries no trace traverses PERMIT, SENSE, ACT, STOP only: VERIFY
is skipped (and CLARIFY and PLAN are never traversed), refuting the claim
that no state of the order PERMIT, SENSE, CLARIFY/PLAN/ACT, VERIFY, STOP
is skipped. -/
theorem enoqCore_verify_skipped :
    statesOf (enoqCore permitAll runtimeNoTrace verifyStub "hi" sampleSession emptyConfig) =
      [PipelineState.PERMIT, PipelineState.SENSE, PipelineState.ACT, PipelineState.STOP] ∧
    PipelineState.VERIFY ∉
      statesOf (enoqCore permitAll runtimeNoTrace verifyStub "hi" sampleSession emptyConfig) ∧
    PipelineState.CLARIFY ∉
      statesOf (enoqCore permitAll runtimeNoTrace verifyStub "hi" sampleSession emptyConfig) ∧
    PipelineState.PLAN ∉
      statesOf (enoqCore permitAll runtimeNoTrace verifyStub "hi" sampleSession emptyConfig) := by
  refine ⟨rfl, ?_, ?_, ?_⟩ <;> decide

/-- C7 (amended): for every successful run with signals enabled, the
traversed states are strictly linear and forward-only: they equal
PERMIT, SENSE, ACT, VERIFY, STOP when verification is enabled and the
trace data is available, and PERMIT, SENSE, ACT, STOP otherwise; in both
cases the initial state is PERMIT and STOP is the final state. -/
theorem enoqCore_states_forward_linear (pf : PermitFun) (rt : RuntimeEnoq)
    (vf : VerifyFun) (message : String) (session : Session) (config : CoreConfig)
    (res : PipelineResult)
    (hok : rt message session { gate_enabled := config.gate_enabled.getD true } =
      Except.ok res)
    (hsig : config.signals_enabled.getD true = true) :
    ((config.verification_enabled.getD true && traceReady res.trace) = true →
      statesOf (enoqCore pf rt vf message session config) =
        [PipelineState.PERMIT, PipelineState.SENSE, PipelineState.ACT,
          PipelineState.VERIFY, PipelineState.STOP]) ∧
    ((config.verification_enabled.getD true && traceReady res.trace) = false →
      statesOf (enoqCore pf rt vf message session config) =
        [PipelineState.PERMIT, PipelineState.SENSE, PipelineState.ACT,
          PipelineState.STOP]) := by
  constructor <;> intro hcond <;>
    simp [enoqCore, statesOf, hok, hsig, hcond]

/-- C7 witness: the amended statement evaluated on a run whose runtime
result carries a complete trace. -/
theorem enoqCore_states_forward_linear_witness :
    ((emptyConfig.verification_enabled.getD true &&
        traceReady (PipelineResult.trace
          { output := "out"
            trace := some { s1_field := some { language := "en" }
                            s3_selection := some "sel" } })) = true →
      statesOf (enoqCore permitAll runtimeWithTrace verifyStub "hi" sampleSession emptyConfig) =
        [PipelineState.PERMIT, PipelineState.SENSE, PipelineState.ACT,
          PipelineState.VERIFY, PipelineState.STOP]) ∧
    ((emptyConfig.verification_enabled.getD true &&
        traceReady (PipelineResult.trace
          { output := "out"
            trace := some { s1_field := some { language := "en" }
                            s3_selection := some "sel" } })) = false →
      statesOf (enoqCore permitAll runtimeWithTrace verifyStub "hi" sampleSession emptyConfig) =
        [PipelineState.PERMIT, PipelineState.SENSE, PipelineState.ACT,
          PipelineState.STOP]) :=
  enoqCore_states_forward_linear permitAll runtimeWithTrace verifyStub "hi"
    sampleSession emptyConfig
    { output := "out"
      trace := some { s1_field := some { language := "en" }, s3_selection := some "sel" } }
    rfl rfl

/-- C4 counterexample: writing into the idempotency cache is not
first-writer-wins.  With a live (just-written, non-expired) value stored
under the key, setCachedResponse unconditionally replaces it with the
new response (webhook.ts line 68 calls Map.set with no presence check),
so a second completer that reaches the write does overwrite the first
writer's live value. -/
theorem setCachedResponse_overwrites_live :
    (getCachedResponse 0 [("k", { response := respA, timestamp := 0 })] "k").1 =
      some respA ∧
    (getCachedResponse 0
      (setCachedResponse 0 [("k", { response := respA, timestamp := 0 })] "k" respB)
      "k").1 = some respB ∧
    respB ≠ respA := by
  refine ⟨rfl, rfl, ?_⟩
  decide

/-- C4 (amended): in a sequential execution a live value is indeed never
overwritten, because the cache read at the top of processWebhook
short-circuits: a call whose key holds a live cached response returns
that response and leaves the cache exactly as it was, performing no
write.  First-writer-wins is not enforced at the write itself: two
interleaved completers can still overwrite (see the counterexample). -/
theorem processWebhook_live_entry_no_overwrite (reqId : String) (now : Nat)
    (b : Behavior) (p : WebhookPayload) (cache : Cache) (k : String)
    (r : ConnectorResponse) (hk : p.idempotency_key = some k)
    (hlive : (getCachedResponse now cache k).1 = some r) :
    processWebhook reqId now b p cache = (toWebhookResponse r (some k), cache) :=
  processWebhook_hit reqId now b p cache k r hk hlive

/-- C4 witness: the no-overwrite statement evaluated on a cache holding
one live entry. -/
theorem processWebhook_live_entry_no_overwrite_witness :
    processWebhook "r9" 0 behaviorOk goodPayload
        [("k", { response := respA, timestamp := 0 })] =
      (toWebhookResponse respA (some "k"),
        [("k", { response := respA, timestamp := 0 })]) :=
  processWebhook_live_entry_no_overwrite "r9" 0 behaviorOk goodPayload
    [("k", { response := respA, timestamp := 0 })] "k" respA rfl rfl

/-- C5 counterexample: the round-trip claim fails for payloads that do
not pass validation.  A payload with an unknown runtime name and an
idempotency key is rejected before the caching step, so nothing is
stored: a second call within the TTL window is not served from the cache
and its response differs from the first (fresh request id), refuting the
claim for every webhook payload carrying an idempotency key. -/
theorem processWebhook_validation_failure_not_cached :
    badPayload.idempotency_key = some "k" ∧
    (1 : Nat) - 0 ≤ CACHE_TTL_MS ∧
    (processWebhook "r1" 0 behaviorThrow badPayload []).2 = [] ∧
    (processWebhook "r2" 1 behaviorThrow badPayload
        (processWebhook "r1" 0 behaviorThrow badPayload []).2).1 ≠
      (processWebhook "r1" 0 behaviorThrow badPayload []).1 := by
  refine ⟨rfl, by decide, rfl, ?_⟩
  decide

/-- C5 (amended): for every payload that passes validation (valid
runtime name and present input), a second call carrying the same
idempotency key within the TTL window returns exactly the first call's
response, whatever runtime behavior the second call would have used (no
reprocessing); and a second call after the TTL window finds the entry
absent - the expired entry is removed on read - and runs the full
validation and processing body on the purged cache. -/
theorem processWebhook_idempotency_ttl (reqId1 reqId2 : String) (t1 t2 : Nat)
    (b b' : Behavior) (p p2 : WebhookPayload) (cache : Cache) (k inp : String)
    (hk : p.idempotency_key = some k) (hk2 : p2.idempotency_key = some k)
    (hvalid : validRuntimes.contains p.runtime = true)
    (hinput : p.input = some inp) (hmiss : mapGet cache k = none) :
    (t2 - t1 ≤ CACHE_TTL_MS →
      (processWebhook reqId2 t2 b' p2 (processWebhook reqId1 t1 b p cache).2).1 =
        (processWebhook reqId1 t1 b p cache).1) ∧
    (t2 - t1 > CACHE_TTL_MS →
      processWebhook reqId2 t2 b' p2 (processWebhook reqId1 t1 b p cache).2 =
        processWebhookBody reqId2 t2 b' p2
          (mapDelete (processWebhook reqId1 t1 b p cache).2 k)) := by
  have h1 := processWebhook_first_write reqId1 t1 b p cache k inp hk hvalid hinput hmiss
  have hget2 : mapGet (processWebhook reqId1 t1 b p cache).2 k =
      some { response := connectorProcess b t1
               { request_id := reqId1, runtime := p.runtime, payload := inp, timestamp := t1 }
             timestamp := t1 } := by
    rw [h1]
    exact mapGet_setCachedResponse_self t1 cache k _
  constructor
  · intro hwithin
    have hnot : ¬ (t2 - t1 > CACHE_TTL_MS) := Nat.not_lt.mpr hwithin
    have hlive2 : (getCachedResponse t2 (processWebhook reqId1 t1 b p cache).2 k).1 =
        some (connectorProcess b t1
          { request_id := reqId1, runtime := p.runtime, payload := inp, timestamp := t1 }) := by
      unfold getCachedResponse
      rw [hget2]
      simp [hnot]
    rw [processWebhook_hit reqId2 t2 b' p2 _ k _ hk2 hlive2, h1]
  · intro hafter
    generalize hC : (processWebhook reqId1 t1 b p cache).2 = C at hget2 ⊢
    have hg : getCachedResponse t2 C k = (none, mapDelete C k) := by
      unfold getCachedResponse
      rw [hget2]
      simp [hafter]
    unfold processWebhook
    rw [hk2]
    simp [hg]

/-- C5 witness: the amended round-trip evaluated on a valid mail payload,
first call at time 0, second call at time 1 with a different behavior. -/
theorem processWebhook_idempotency_ttl_witness :
    ((1 : Nat) - 0 ≤ CACHE_TTL_MS →
      (processWebhook "r2" 1 behaviorThrow goodPayload
          (processWebhook "r1" 0 behaviorOk goodPayload []).2).1 =
        (processWebhook "r1" 0 behaviorOk goodPayload []).1) ∧
    ((1 : Nat) - 0 > CACHE_TTL_MS →
      processWebhook "r2" 1 behaviorThrow goodPayload
          (processWebhook "r1" 0 behaviorOk goodPayload []).2 =
        processWebhookBody "r2" 1 behaviorThrow goodPayload
          (mapDelete (processWebhook "r1" 0 behaviorOk goodPayload []).2 "k")) :=
  processWebhook_idempotency_ttl "r1" "r2" 0 1 behaviorOk behaviorThrow
    goodPayload goodPayload [] "k" "i" rfl rfl rfl rfl rfl

/-- C9: processWebhook is a total function into webhook responses (the
embedding returns a WebhookResponse on every path; every runtime
exception is caught inside WebhookConnector.process).  On a fresh key:
an unknown runtime name yields success false with code INVALID_RUNTIME
and the outcome is independent of the runtime behaviors (no runtime is
invoked); a missing or non-object input yields success false with code
INVALID_INPUT, also behavior-independent; and a runtime that throws
yields success false with code PROCESSING_ERROR. -/
theorem processWebhook_error_paths (reqId : String) (now : Nat) (b : Behavior)
    (p : WebhookPayload) (cache : Cache)
    (hmiss : ∀ k, p.idempotency_key = some k → mapGet cache k = none) :
    (validRuntimes.contains p.runtime = false →
      ((processWebhook reqId now b p cache).1.success = false ∧
        (processWebhook reqId now b p cache).1.error =
          some { code := "INVALID_RUNTIME"
                 message := "Runtime must be one of: mail, relation, decision" } ∧
        ∀ b2 : Behavior,
          processWebhook reqId now b2 p cache = processWebhook reqId now b p cache)) ∧
    (validRuntimes.contains p.runtime = true → p.input = none →
      ((processWebhook reqId now b p cache).1.success = false ∧
        (processWebhook reqId now b p cache).1.error =
          some { code := "INVALID_INPUT", message := "Input must be a non-null object" } ∧
        ∀ b2 : Behavior,
          processWebhook reqId now b2 p cache = processWebhook reqId now b p cache)) ∧
    (∀ inp e, validRuntimes.contains p.runtime = true → p.input = some inp →
      b p.runtime inp = Except.error e →
      ((processWebhook reqId now b p cache).1.success = false ∧
        ∃ m, (processWebhook reqId now b p cache).1.error =
          some { code := "PROCESSING_ERROR", message := m })) := by
  have hbody : ∀ b2 : Behavior,
      processWebhook reqId now b2 p cache = processWebhookBody reqId now b2 p cache :=
    fun b2 => processWebhook_miss reqId now b2 p cache hmiss
  refine ⟨?_, ?_, ?_⟩
  · intro hrt
    have hnmem : p.runtime ∉ validRuntimes := by
      intro hmem
      have hc : validRuntimes.contains p.runtime = true := by
        simpa [validRuntimes] using hmem
      rw [hrt] at hc
      exact Bool.false_ne_true hc
    refine ⟨?_, ?_, ?_⟩
    · rw [hbody b]
      simp [processWebhookBody, hnmem]
    · rw [hbody b]
      simp [processWebhookBody, hnmem]
    · intro b2
      rw [hbody b2, hbody b]
      simp [processWebhookBody, hnmem]
  · intro hrt hin
    have hmem : p.runtime ∈ validRuntimes := by
      rcases contains_valid_runtime hrt with h | h | h <;> simp [validRuntimes, h]
    refine ⟨?_, ?_, ?_⟩
    · rw [hbody b]
      simp [processWebhookBody, hmem, hin]
    · rw [hbody b]
      simp [processWebhookBody, hmem, hin]
    · intro b2
      rw [hbody b2, hbody b]
      simp [processWebhookBody, hmem, hin]
  · intro inp e hrt hin herr
    have hmem : p.runtime ∈ validRuntimes := by
      rcases contains_valid_runtime hrt with h | h | h <;> simp [validRuntimes, h]
    have hd : p.runtime = "mail" ∨ p.runtime = "relation" ∨ p.runtime = "decision" :=
      contains_valid_runtime hrt
    constructor
    · rw [hbody b]
      simp [processWebhookBody, hmem, hin, connectorProcess, hd, herr, errorResponse,
        toWebhookResponse]
    · rw [hbody b]
      refine ⟨"PROCESSING_ERROR" ++ ": " ++ e, ?_⟩
      simp [processWebhookBody, hmem, hin, connectorProcess, hd, herr, errorResponse,
        toWebhookResponse]

/-- C9 witness: the error-path conjunction evaluated on an
unknown-runtime payload with no idempotency key and a throwing runtime
behavior. -/
theorem processWebhook_error_paths_witness :
    (validRuntimes.contains badPayloadNoKey.runtime = false →
      ((processWebhook "r1" 0 behaviorThrow badPayloadNoKey []).1.success = false ∧
        (processWebhook "r1" 0 behaviorThrow badPayloadNoKey []).1.error =
          some { code := "INVALID_RUNTIME"
                 message := "Runtime must be one of: mail, relation, decision" } ∧
        ∀ b2 : Behavior,
          processWebhook "r1" 0 b2 badPayloadNoKey [] =
            processWebhook "r1" 0 behaviorThrow badPayloadNoKey [])) ∧
    (validRuntimes.contains badPayloadNoKey.runtime = true →
      badPayloadNoKey.input = none →
      ((processWebhook "r1" 0 behaviorThrow badPayloadNoKey []).1.success = false ∧
        (processWebhook "r1" 0 behaviorThrow badPayloadNoKey []).1.error =
          some { code := "INVALID_INPUT", message := "Input must be a non-null object" } ∧
        ∀ b2 : Behavior,
          processWebhook "r1" 0 b2 badPayloadNoKey [] =
            processWebhook "r1" 0 behaviorThrow badPayloadNoKey [])) ∧
    (∀ inp e, validRuntimes.contains badPayloadNoKey.runtime = true →
      badPayloadNoKey.input = some inp →
      behaviorThrow badPayloadNoKey.runtime inp = Except.error e →
      ((processWebhook "r1" 0 behaviorThrow badPayloadNoKey []).1.success = false ∧
        ∃ m, (processWebhook "r1" 0 behaviorThrow badPayloadNoKey []).1.error =
          some { code := "PROCESSING_ERROR", message := m })) :=
  processWebhook_error_paths "r1" 0 behaviorThrow badPayloadNoKey []
    (fun _ h => nomatch h)

end ENOQ
